import Mathlib

/-!
Verification of `misc/python/materialize/checks/scenarios_upgrade.py`:
three upgrade scenarios (`UpgradeEntireMz`, `UpgradeComputedLast`,
`UpgradeComputedFirst`), each exposing an `actions()` method returning a
fixed list of actions.  We embed the action lists shallowly and prove the
ordering, version-monotonicity and environment-override properties stated
in the specification, together with a spec-modelled fail-fast executor.
-/

namespace Materialize.Checks.ScenariosUpgrade

/-- The actions used by the upgrade scenarios, imported in the source from
`materialize.checks.actions` (`Initialize`, `Manipulate`, `Sleep`,
`Validate`) and `materialize.checks.mzcompose_actions` (`KillComputed`,
`KillMz`, `StartComputed`, `StartMz`, `UseComputed`).  `C` is the type of
the check collection (`self.checks` in the source).  A version tag is
`Option String`: `none` is the Python `tag=None` "build under test"
sentinel, `some v` a concrete released version string.  `startMz` records
the `environment_extra` argument as an `Option`: `none` means the call
site did not supply it (the Python call used the class default).
`init` models the Python `Initialize` action class. -/
inductive Action (C : Type) where
  | startMz (tag : Option String) (environment_extra : Option (List String))
  | killMz
  | startComputed (tag : Option String)
  | killComputed
  | useComputed
  | init (checks : C)
  | manipulate (checks : C) (phase : Nat)
  | validate (checks : C)
  | sleep (duration : Nat)

/-- Source line `LAST_RELEASED_VERSION = f"v{util.released_materialize_versions()[0]}"`.
The released-version catalog (`materialize.util`) is external to the core,
so the most recent released version string is a parameter. -/
def LAST_RELEASED_VERSION (releasedVersion0 : String) : String :=
  "v" ++ releasedVersion0

/-- Source lines 34-39: the `environment_extra` list of two environment
override strings, built by f-strings from `size`
(`Materialized.Size.DEFAULT_SIZE`, a constant of an external module, hence
a parameter here). -/
def environment_extra (size : String) : List String :=
  [ "MZ_STORAGE_HOST_SIZES=\x7b\"" ++ size ++ "\":\x7b\"workers\":" ++ size ++ "\x7d\x7d",
    "MZ_CLUSTER_REPLICA_SIZES=\x7b\"1\":\x7b\"workers\":1,\"scale\":1\x7d,\""
      ++ size ++ "-" ++ size ++ "\":\x7b\"workers\":" ++ size
      ++ ",\"scale\":" ++ size ++ "\x7d\x7d" ]

/-- `UpgradeEntireMz.actions` (source lines 45-54): upgrade the entire Mz
instance from `LAST_RELEASED_VERSION` all at once. -/
def UpgradeEntireMz.actions {C : Type} (checks : C) (v0 size : String) :
    List (Action C) :=
  [ Action.startMz (some (LAST_RELEASED_VERSION v0)) (some (environment_extra size)),
    Action.init checks,
    Action.manipulate checks 1,
    Action.killMz,
    Action.startMz none none,
    Action.manipulate checks 2,
    Action.validate checks ]

/-- `UpgradeComputedLast.actions` (source lines 69-88): upgrade computed
separately after upgrading environmentd+storaged. -/
def UpgradeComputedLast.actions {C : Type} (checks : C) (v0 size : String) :
    List (Action C) :=
  [ Action.startMz (some (LAST_RELEASED_VERSION v0)) (some (environment_extra size)),
    Action.startComputed (some (LAST_RELEASED_VERSION v0)),
    Action.useComputed,
    Action.init checks,
    Action.manipulate checks 1,
    Action.killMz,
    Action.startMz none none,
    Action.sleep 10,
    Action.killComputed,
    Action.startComputed none,
    Action.manipulate checks 2,
    Action.validate checks ]

/-- `UpgradeComputedFirst.actions` (source lines 94-113): upgrade computed
separately before environmentd and storaged. -/
def UpgradeComputedFirst.actions {C : Type} (checks : C) (v0 size : String) :
    List (Action C) :=
  [ Action.startMz (some (LAST_RELEASED_VERSION v0)) (some (environment_extra size)),
    Action.startComputed (some (LAST_RELEASED_VERSION v0)),
    Action.useComputed,
    Action.init checks,
    Action.manipulate checks 1,
    Action.killComputed,
    Action.startComputed none,
    Action.sleep 10,
    Action.killMz,
    Action.startMz none none,
    Action.manipulate checks 2,
    Action.validate checks ]

/-- The spec's two-element version-tag domain: a concrete released version
or the "build under test" sentinel. -/
inductive VTag where
  | released
  | underTest

/-- Spec-level vocabulary of scenario events: the coordinator pair
(environmentd+storaged, targeted by `StartMz`/`KillMz`), the worker role
(computed, targeted by `StartComputed`/`KillComputed`), check-driver
events and the coexistence-window sleep. -/
inductive Event where
  | startMzE (t : VTag)
  | killMzE
  | startComputedE (t : VTag)
  | killComputedE
  | initE
  | manipulateE (phase : Nat)
  | validateE
  | sleepE

/-- Abstract a concrete tag into the spec's two-element domain. -/
def tagAbs : Option String → VTag
  | some _ => VTag.released
  | none => VTag.underTest

/-- Abstract a source action into a spec event.  `useComputed` is erased:
per the spec it is a pure state-pointer update, never a process
transition, so it is not an upgrade-ordering event. -/
def eventAbs {C : Type} : Action C → Option Event
  | Action.startMz t _ => some (Event.startMzE (tagAbs t))
  | Action.killMz => some Event.killMzE
  | Action.startComputed t => some (Event.startComputedE (tagAbs t))
  | Action.killComputed => some Event.killComputedE
  | Action.useComputed => none
  | Action.init _ => some Event.initE
  | Action.manipulate _ p => some (Event.manipulateE p)
  | Action.validate _ => some Event.validateE
  | Action.sleep _ => some Event.sleepE

/-- Spec sequence for Whole-cluster-at-once, transcribed from the spec:
start all components at old version, Initialize, Manipulate(phase 1), kill
everything, restart everything at new version, Manipulate(phase 2),
Validate. -/
def specWholeClusterAtOnce : List Event :=
  [ Event.startMzE VTag.released, Event.initE, Event.manipulateE 1,
    Event.killMzE, Event.startMzE VTag.underTest, Event.manipulateE 2,
    Event.validateE ]

/-- Spec sequence for Worker-upgraded-last, transcribed from the spec:
start coordinator roles (old) and worker role (old) separately,
Initialize, Manipulate(phase 1), kill+restart coordinator roles only (new
version), Sleep, kill+restart worker role (new version),
Manipulate(phase 2), Validate. -/
def specWorkerUpgradedLast : List Event :=
  [ Event.startMzE VTag.released, Event.startComputedE VTag.released,
    Event.initE, Event.manipulateE 1,
    Event.killMzE, Event.startMzE VTag.underTest,
    Event.sleepE,
    Event.killComputedE, Event.startComputedE VTag.underTest,
    Event.manipulateE 2, Event.validateE ]

/-- Spec sequence for Worker-upgraded-first, transcribed from the spec:
same as Worker-upgraded-last but the worker role is upgraded before the
coordinator roles, with the Sleep and Manipulate(phase 2)/Validate placed
symmetrically afterward. -/
def specWorkerUpgradedFirst : List Event :=
  [ Event.startMzE VTag.released, Event.startComputedE VTag.released,
    Event.initE, Event.manipulateE 1,
    Event.killComputedE, Event.startComputedE VTag.underTest,
    Event.sleepE,
    Event.killMzE, Event.startMzE VTag.underTest,
    Event.manipulateE 2, Event.validateE ]

/-- Boolean discriminator for `Sleep` actions. -/
def isSleepB {C : Type} : Action C → Bool
  | Action.sleep _ => true
  | _ => false

/-- C3: `UpgradeEntireMz.actions` is exactly the spec's Whole-cluster-at-once
sequence (start all at old, Initialize, Manipulate 1, kill everything,
restart everything at the new version, Manipulate 2, Validate) and
contains no Sleep action. -/
theorem upgradeEntireMz_matches_spec_no_sleep (C : Type) (c : C) (v0 size : String) :
    (UpgradeEntireMz.actions c v0 size).filterMap eventAbs = specWholeClusterAtOnce
      ∧ (UpgradeEntireMz.actions c v0 size).countP isSleepB = 0 := by
  constructor <;> rfl

/-- C1: `UpgradeComputedLast.actions` realizes the spec's
Worker-upgraded-last ordering: coordinators and worker each started at the
last released version, then Initialize and Manipulate(phase 1), then the
coordinators only are killed and restarted at the under-test version, then
the Sleep coexistence window, then the worker is killed and restarted at
the under-test version, then Manipulate(phase 2), and Validate is the last
action of the sequence. -/
theorem upgradeComputedLast_matches_spec (C : Type) (c : C) (v0 size : String) :
    (UpgradeComputedLast.actions c v0 size).filterMap eventAbs = specWorkerUpgradedLast
      ∧ (UpgradeComputedLast.actions c v0 size).getLast? = some (Action.validate c) := by
  constructor <;> rfl

/-- C2: `UpgradeComputedFirst.actions` is the Worker-upgraded-last
sequence with the worker upgraded before the coordinators: its event
abstraction equals the spec's Worker-upgraded-first sequence, and at the
concrete ordinal positions `KillComputed` (index 5) precedes
`StartComputed` with tag `None` (index 6), which precedes `Sleep(10)`
(index 7), which precedes `KillMz` (index 8), with `Manipulate(phase 2)`
(index 10) and `Validate` (index 11) after the coordinator upgrade
(`StartMz` with tag `None`, index 9). -/
theorem upgradeComputedFirst_matches_spec (C : Type) (c : C) (v0 size : String) :
    (UpgradeComputedFirst.actions c v0 size).filterMap eventAbs = specWorkerUpgradedFirst
      ∧ (UpgradeComputedFirst.actions c v0 size).get? 5 = some Action.killComputed
      ∧ (UpgradeComputedFirst.actions c v0 size).get? 6 = some (Action.startComputed none)
      ∧ (UpgradeComputedFirst.actions c v0 size).get? 7 = some (Action.sleep 10)
      ∧ (UpgradeComputedFirst.actions c v0 size).get? 8 = some Action.killMz
      ∧ (UpgradeComputedFirst.actions c v0 size).get? 9 = some (Action.startMz none none)
      ∧ (UpgradeComputedFirst.actions c v0 size).get? 10 = some (Action.manipulate c 2)
      ∧ (UpgradeComputedFirst.actions c v0 size).get? 11 = some (Action.validate c) := by
  refine ⟨rfl, rfl, rfl, rfl, rfl, rfl, rfl, rfl⟩

/-- Boolean discriminator for `KillMz`. -/
def isKillMzB {C : Type} : Action C → Bool
  | Action.killMz => true
  | _ => false

/-- Boolean discriminator for `StartMz` (any tag). -/
def isStartMzB {C : Type} : Action C → Bool
  | Action.startMz _ _ => true
  | _ => false

/-- Boolean discriminator for `KillComputed`. -/
def isKillComputedB {C : Type} : Action C → Bool
  | Action.killComputed => true
  | _ => false

/-- Boolean discriminator for `StartComputed` (any tag). -/
def isStartComputedB {C : Type} : Action C → Bool
  | Action.startComputed _ => true
  | _ => false

/-- Checks the no-restart-before-stop discipline for one component along a
sequence: walking the list while counting that component's kills and
starts, at every prefix the number of starts never exceeds the number of
kills plus one (the initial start).  Equivalently, every start beyond the
first is preceded by a fresh kill of the same component. -/
def killBeforeRestart {C : Type} (isKill isStart : Action C → Bool) :
    Nat → Nat → List (Action C) → Bool
  | _, _, [] => true
  | kills, starts, a :: rest =>
    let kills2 := if isKill a then kills + 1 else kills
    let starts2 := if isStart a then starts + 1 else starts
    Nat.ble starts2 (kills2 + 1) && killBeforeRestart isKill isStart kills2 starts2 rest

/-- C4: in all three scenarios, for both components (the coordinator pair
targeted by `KillMz`/`StartMz` and the worker targeted by
`KillComputed`/`StartComputed`), every start of a component that was
previously the target of a kill occurs strictly after that kill: at every
prefix of each sequence the component's starts never outnumber its kills
plus its single initial start. -/
theorem no_restart_before_stop (C : Type) (c : C) (v0 size : String) :
    killBeforeRestart isKillMzB isStartMzB 0 0 (UpgradeEntireMz.actions c v0 size) = true
      ∧ killBeforeRestart isKillComputedB isStartComputedB 0 0 (UpgradeEntireMz.actions c v0 size) = true
      ∧ killBeforeRestart isKillMzB isStartMzB 0 0 (UpgradeComputedLast.actions c v0 size) = true
      ∧ killBeforeRestart isKillComputedB isStartComputedB 0 0 (UpgradeComputedLast.actions c v0 size) = true
      ∧ killBeforeRestart isKillMzB isStartMzB 0 0 (UpgradeComputedFirst.actions c v0 size) = true
      ∧ killBeforeRestart isKillComputedB isStartComputedB 0 0 (UpgradeComputedFirst.actions c v0 size) = true := by
  refine ⟨rfl, rfl, rfl, rfl, rfl, rfl⟩

/-- C5: each of `UpgradeComputedLast.actions` and
`UpgradeComputedFirst.actions` contains exactly one Sleep action, at index
7: strictly after the kill-and-restart (indices 5, 6) of the role upgraded
first and strictly before the kill-and-restart (indices 8, 9) of the role
upgraded second. -/
theorem single_sleep_between_role_transitions (C : Type) (c : C) (v0 size : String) :
    (UpgradeComputedLast.actions c v0 size).countP isSleepB = 1
      ∧ (UpgradeComputedLast.actions c v0 size).get? 5 = some Action.killMz
      ∧ (UpgradeComputedLast.actions c v0 size).get? 6 = some (Action.startMz none none)
      ∧ (UpgradeComputedLast.actions c v0 size).get? 7 = some (Action.sleep 10)
      ∧ (UpgradeComputedLast.actions c v0 size).get? 8 = some Action.killComputed
      ∧ (UpgradeComputedLast.actions c v0 size).get? 9 = some (Action.startComputed none)
      ∧ (UpgradeComputedFirst.actions c v0 size).countP isSleepB = 1
      ∧ (UpgradeComputedFirst.actions c v0 size).get? 5 = some Action.killComputed
      ∧ (UpgradeComputedFirst.actions c v0 size).get? 6 = some (Action.startComputed none)
      ∧ (UpgradeComputedFirst.actions c v0 size).get? 7 = some (Action.sleep 10)
      ∧ (UpgradeComputedFirst.actions c v0 size).get? 8 = some Action.killMz
      ∧ (UpgradeComputedFirst.actions c v0 size).get? 9 = some (Action.startMz none none) := by
  refine ⟨rfl, rfl, rfl, rfl, rfl, rfl, rfl, rfl, rfl, rfl, rfl, rfl⟩

/-- Cluster version state tracked along a scenario: for each of the two
roles, `none` when the role is not running, `some tag` when it runs with
the given version tag (`some none` = running the build under test). -/
structure ClusterState where
  mz : Option (Option String)
  computed : Option (Option String)

/-- The all-stopped initial cluster state. -/
def ClusterState.start : ClusterState := ⟨none, none⟩

/-- How a lifecycle action updates the cluster version state; check-driver
and timing actions leave it unchanged. -/
def stepState {C : Type} (s : ClusterState) : Action C → ClusterState
  | Action.startMz tag _ => ⟨some tag, s.computed⟩
  | Action.killMz => ⟨none, s.computed⟩
  | Action.startComputed tag => ⟨s.mz, some tag⟩
  | Action.killComputed => ⟨s.mz, none⟩
  | _ => s

/-- The skew the spec forbids productive work under: the worker (computed)
running the build under test while the coordinators (environmentd+storaged)
still run a released version. -/
def workerNewerThanMz (s : ClusterState) : Bool :=
  match s.computed, s.mz with
  | some none, some (some _) => true
  | _, _ => false

/-- Boolean discriminator for productive check-driver actions
(`Manipulate` or `Validate`). -/
def isWorkB {C : Type} : Action C → Bool
  | Action.manipulate _ _ => true
  | Action.validate _ => true
  | _ => false

/-- Walks a sequence tracking the cluster version state and checks that no
`Manipulate` or `Validate` action runs from a state where the worker is
newer than the coordinators. -/
def noWorkWhileWorkerNewer {C : Type} (s : ClusterState) : List (Action C) → Bool
  | [] => true
  | a :: rest =>
    (!(isWorkB a && workerNewerThanMz s))
      && noWorkWhileWorkerNewer (stepState s a) rest

/-- C6: in all three scenarios no `Manipulate` or `Validate` action runs
at a position where the worker runs the under-test build while the
coordinators still run the released version; and in
`UpgradeComputedFirst.actions` the only action between the worker's
under-test restart (`StartComputed` with tag `None`, index 6, the only
such action) and the coordinators' kill (`KillMz`, index 8, the only such
action) is the `Sleep` at index 7. -/
theorem worker_never_newer_during_work (C : Type) (c : C) (v0 size : String) :
    noWorkWhileWorkerNewer ClusterState.start (UpgradeEntireMz.actions c v0 size) = true
      ∧ noWorkWhileWorkerNewer ClusterState.start (UpgradeComputedLast.actions c v0 size) = true
      ∧ noWorkWhileWorkerNewer ClusterState.start (UpgradeComputedFirst.actions c v0 size) = true
      ∧ (UpgradeComputedFirst.actions c v0 size).countP
          (fun a => isStartComputedB a && !isStartMzB a
            && (match a with | Action.startComputed none => true | _ => false)) = 1
      ∧ (UpgradeComputedFirst.actions c v0 size).countP isKillMzB = 1
      ∧ (UpgradeComputedFirst.actions c v0 size).get? 6 = some (Action.startComputed none)
      ∧ (UpgradeComputedFirst.actions c v0 size).get? 7 = some (Action.sleep 10)
      ∧ (UpgradeComputedFirst.actions c v0 size).get? 8 = some Action.killMz := by
  refine ⟨rfl, rfl, rfl, rfl, rfl, rfl, rfl, rfl⟩

/-- The tags of the `StartMz` actions of a sequence, in order. -/
def mzStartTags {C : Type} (l : List (Action C)) : List (Option String) :=
  l.filterMap fun a => match a with
    | Action.startMz t _ => some t
    | _ => none

/-- The tags of the `StartComputed` actions of a sequence, in order. -/
def computedStartTags {C : Type} (l : List (Action C)) : List (Option String) :=
  l.filterMap fun a => match a with
    | Action.startComputed t => some t
    | _ => none

/-- C9: per component, the start-version tags of every scenario are the
monotone sequence released-then-under-test: each component's starts carry
first the `LAST_RELEASED_VERSION` tag and then the under-test sentinel
`none` (or the component is never started, as computed in
`UpgradeEntireMz`); no component is restarted at a released version after
running the under-test build. -/
theorem start_tags_monotone (C : Type) (c : C) (v0 size : String) :
    mzStartTags (UpgradeEntireMz.actions c v0 size) = [some (LAST_RELEASED_VERSION v0), none]
      ∧ computedStartTags (UpgradeEntireMz.actions c v0 size) = []
      ∧ mzStartTags (UpgradeComputedLast.actions c v0 size) = [some (LAST_RELEASED_VERSION v0), none]
      ∧ computedStartTags (UpgradeComputedLast.actions c v0 size) = [some (LAST_RELEASED_VERSION v0), none]
      ∧ mzStartTags (UpgradeComputedFirst.actions c v0 size) = [some (LAST_RELEASED_VERSION v0), none]
      ∧ computedStartTags (UpgradeComputedFirst.actions c v0 size) = [some (LAST_RELEASED_VERSION v0), none] := by
  refine ⟨rfl, rfl, rfl, rfl, rfl, rfl⟩

/-- The (tag, environment-extra argument) pairs of the `StartMz` actions
of a sequence, in order; the second component is `none` when the call site
supplied no `environment_extra` argument. -/
def mzStartEnvs {C : Type} (l : List (Action C)) :
    List (Option String × Option (List String)) :=
  l.filterMap fun a => match a with
    | Action.startMz t e => some (t, e)
    | _ => none

/-- C10: in every scenario the `environment_extra` override list is
supplied only to the initial coordinator start at the last released
version; the under-test `StartMz` call passes no `environment_extra`
argument, and (by the shape of the source call sites, reflected in the
`startComputed` constructor carrying only a tag) worker starts are
constructed without environment overrides. -/
theorem environment_extra_only_on_first_start (C : Type) (c : C) (v0 size : String) :
    mzStartEnvs (UpgradeEntireMz.actions c v0 size)
        = [(some (LAST_RELEASED_VERSION v0), some (environment_extra size)), (none, none)]
      ∧ mzStartEnvs (UpgradeComputedLast.actions c v0 size)
        = [(some (LAST_RELEASED_VERSION v0), some (environment_extra size)), (none, none)]
      ∧ mzStartEnvs (UpgradeComputedFirst.actions c v0 size)
        = [(some (LAST_RELEASED_VERSION v0), some (environment_extra size)), (none, none)] := by
  refine ⟨rfl, rfl, rfl⟩

/-- C8: each scenario's `actions` is a pure function: repeated calls on the
same instance data (checks, resolved version, size) return equal
sequences, and each returned sequence is non-empty (lengths 7, 12, 12).
Side-effect freedom holds by construction of the embedding: the source
method bodies only construct and return a list literal. -/
theorem actions_deterministic_nonempty (C : Type) (c : C) (v0 size : String) :
    UpgradeEntireMz.actions c v0 size = UpgradeEntireMz.actions c v0 size
      ∧ UpgradeComputedLast.actions c v0 size = UpgradeComputedLast.actions c v0 size
      ∧ UpgradeComputedFirst.actions c v0 size = UpgradeComputedFirst.actions c v0 size
      ∧ (UpgradeEntireMz.actions c v0 size).length = 7
      ∧ (UpgradeComputedLast.actions c v0 size).length = 12
      ∧ (UpgradeComputedFirst.actions c v0 size).length = 12
      ∧ UpgradeEntireMz.actions c v0 size ≠ []
      ∧ UpgradeComputedLast.actions c v0 size ≠ []
      ∧ UpgradeComputedFirst.actions c v0 size ≠ [] := by
  refine ⟨rfl, rfl, rfl, rfl, rfl, rfl, ?_, ?_, ?_⟩ <;> simp [UpgradeEntireMz.actions,
    UpgradeComputedLast.actions, UpgradeComputedFirst.actions]

/-- Outcome of a Scenario Executor run: every action completed, or the run
aborted at the ordinal position of the failing action. -/
inductive Outcome where
  | Completed
  | Aborted (k : Nat)

/-- Modelled from the spec: the Scenario Executor is not under `src/`
(only the Scenario definitions are); per the spec it is a state machine
`Pending → Running(i) → Completed | Aborted(i)` that applies `actions[i]`,
on success advances to `Running(i+1)` (or `Completed` at the end), and on
failure transitions to `Aborted` and stops, executing no further action.
`ok i` is the oracle giving the success of applying the action at index
`i` (apply results come from the external execution backend).  `execFrom
ok i l` runs the tail `l` starting at ordinal position `i` and returns the
outcome together with the indices of the actions that were applied. -/
def execFrom {C : Type} (ok : Nat → Bool) (i : Nat) :
    List (Action C) → Outcome × List Nat
  | [] => (Outcome.Completed, [])
  | _ :: rest =>
    if ok i then
      let r := execFrom ok (i + 1) rest
      (r.1, i :: r.2)
    else
      (Outcome.Aborted i, [i])

/-- Modelled from the spec: running the Scenario Executor on a whole
action sequence from its first action. -/
def execute {C : Type} (ok : Nat → Bool) (l : List (Action C)) :
    Outcome × List Nat :=
  execFrom ok 0 l

/-- Generalized fail-fast lemma for `execFrom`: if the first failing
offset within the remaining tail is `k`, the run aborts at absolute index
`i + k` and applies no action at a larger index. -/
theorem execFrom_fail_fast {C : Type} (ok : Nat → Bool) :
    ∀ (l : List (Action C)) (i k : Nat), k < l.length →
      (∀ j, j < k → ok (i + j) = true) → ok (i + k) = false →
      (execFrom ok i l).1 = Outcome.Aborted (i + k)
        ∧ ∀ j ∈ (execFrom ok i l).2, j ≤ i + k := by
  intro l
  induction l with
  | nil =>
    intro i k hk _ _
    exact absurd hk (Nat.not_lt_zero k)
  | cons a rest ih =>
    intro i k hk hpre hfail
    cases k with
    | zero =>
      have hoki : ok i = false := by simpa using hfail
      constructor
      · simp [execFrom, hoki]
      · intro j hj
        simp [execFrom, hoki] at hj
        simp [hj]
    | succ k2 =>
      have hoki : ok i = true := by
        have := hpre 0 (Nat.succ_pos k2)
        simpa using this
      have hk2 : k2 < rest.length := Nat.lt_of_succ_lt_succ hk
      have hpre2 : ∀ j, j < k2 → ok (i + 1 + j) = true := by
        intro j hj
        have := hpre (j + 1) (Nat.succ_lt_succ hj)
        have harith : i + (j + 1) = i + 1 + j := by omega
        rwa [harith] at this
      have hfail2 : ok (i + 1 + k2) = false := by
        have harith : i + (k2 + 1) = i + 1 + k2 := by omega
        rwa [harith] at hfail
      obtain ⟨h1, h2⟩ := ih (i + 1) k2 hk2 hpre2 hfail2
      have habs : i + 1 + k2 = i + (k2 + 1) := by omega
      constructor
      · simp only [execFrom, hoki, if_pos]
        rw [h1, habs]
      · intro j hj
        simp only [execFrom, hoki, if_pos, List.mem_cons] at hj
        cases hj with
        | inl hji => omega
        | inr hjm =>
          have := h2 j hjm
          omega

/-- C7: running the Scenario Executor on any action sequence whose action
at index `k` fails (all earlier actions succeeding) yields `Aborted` at
exactly index `k`, and no action at any index greater than `k` is
applied. -/
theorem executor_fail_fast (C : Type) (ok : Nat → Bool) (l : List (Action C))
    (k : Nat) (hk : k < l.length) (hpre : ∀ j, j < k → ok j = true)
    (hfail : ok k = false) :
    (execute ok l).1 = Outcome.Aborted k
      ∧ ∀ j ∈ (execute ok l).2, j ≤ k := by
  have := execFrom_fail_fast ok l 0 k hk (by simpa using hpre) (by simpa using hfail)
  simpa [execute] using this

/-- Concrete instance of `executor_fail_fast`: running `UpgradeEntireMz`
with an oracle failing at index 3 (`KillMz`) aborts at index 3 and applies
no later action. -/
theorem executor_fail_fast_witness :
    (execute (fun j => Nat.ble j 2) (UpgradeEntireMz.actions () "0.44.0" "4")).1
        = Outcome.Aborted 3
      ∧ ∀ j ∈ (execute (fun j => Nat.ble j 2) (UpgradeEntireMz.actions () "0.44.0" "4")).2,
          j ≤ 3 :=
  executor_fail_fast Unit (fun j => Nat.ble j 2)
    (UpgradeEntireMz.actions () "0.44.0" "4") 3 (by decide)
    (by decide) (by decide)

end Materialize.Checks.ScenariosUpgrade
